import Mathlib

/-!
Verification development for the sensitive-data approval workflow engine.

The definitions below are a shallow embedding of the Go source:
 - `backend/store/approval_flow.go` (flows, executions, node executions, approvals),
 - `backend/store/` notification code (`UpdateNotification` and friends),
 - `backend/runner/plancheck/sensitive_data_checker.go` (the gate),
 - `backend/service/sensitive_data_service.go` (rule matching and flow selection),
 - the advisor's `detectSensitiveDataChanges`.

Database tables are modelled as lists of rows inside a `StoreState`; SQL
statements become list traversals (`WHERE id = ?` is a first-match lookup,
`UPDATE ... WHERE id = ?` maps over all rows with that id, `ORDER BY` is an
insertion sort by the ordering key). IDs are `Int` (Go `int32`; the claims
never exercise 32-bit overflow, all ids stay tiny). Fallible Go functions
returning `(T, error)` become `Except String T`. External collaborators
(the regexp library) are abstracted as function parameters.
-/

namespace ApprovalEngine

/-- Sensitivity level, `storepb.SensitiveDataLevel` (proto ordinal:
UNSPECIFIED = 0 < LOW = 1 < MEDIUM = 2 < HIGH = 3). -/
inductive SensitiveDataLevel where
  | unspecified
  | low
  | medium
  | high
deriving DecidableEq, Repr

/-- The proto integer value of a level; Go compares levels with `>` on it. -/
def SensitiveDataLevel.toNat : SensitiveDataLevel → Nat
  | .unspecified => 0
  | .low => 1
  | .medium => 2
  | .high => 3

/-- `storepb.ApprovalFlowExecutionStatus`. -/
inductive ExecStatus where
  | unspecified
  | pending
  | inProgress
  | approved
  | rejected
  | cancelled
deriving DecidableEq, Repr

/-- `storepb.ApprovalNodeExecutionStatus`. -/
inductive NodeExecStatus where
  | unspecified
  | pending
  | inProgress
  | approved
  | rejected
  | skipped
deriving DecidableEq, Repr

/-- `storepb.ApprovalStatus` (the decision recorded by one approver). -/
inductive ApprovalStatus where
  | unspecified
  | approved
  | rejected
deriving DecidableEq, Repr

/-- A row of table `approval_flow` (store.ApprovalFlow header fields). -/
structure FlowRow where
  id : Int
  level : SensitiveDataLevel
  enabled : Bool
  createTime : Int
deriving DecidableEq, Repr

/-- A row of table `approval_node` (store.ApprovalNode). -/
structure NodeRow where
  id : Int
  flowId : Int
  requiredApprovals : Int
deriving DecidableEq, Repr

/-- A row of table `approval_flow_execution` (store.ApprovalFlowExecution). -/
structure ExecRow where
  id : Int
  flowId : Int
  issueId : Int
  level : SensitiveDataLevel
  status : ExecStatus
  creatorId : Int
  createTime : Int
deriving DecidableEq, Repr

/-- A row of table `approval_node_execution` (store.ApprovalNodeExecution). -/
structure NodeExecRow where
  id : Int
  executionId : Int
  nodeId : Int
  status : NodeExecStatus
deriving DecidableEq, Repr

/-- A row of table `approval` (store.Approval). -/
structure ApprovalRow where
  id : Int
  nodeExecutionId : Int
  userId : Int
  status : ApprovalStatus
  comment : String
deriving DecidableEq, Repr

/-- An issue row, as consumed by the plan checker (`GetIssue`). -/
structure IssueRow where
  id : Int
  creatorId : Int
deriving DecidableEq, Repr

/-- A field entry of a store sensitive-data rule (part of `store.SensitiveDataRule`),
as read by the advisor's `detectSensitiveDataChanges`. -/
structure RuleField where
  fieldName : String
  regex : String
deriving DecidableEq, Repr

/-- A store sensitive-data rule, as read by `detectSensitiveDataChanges`. -/
structure StoreRule where
  id : Int
  tableName : String
  level : SensitiveDataLevel
  fields : List RuleField
deriving DecidableEq, Repr

/-- A row of table `notification` (store.Notification). -/
structure NotificationRow where
  id : Int
  type : String
  title : String
  content : String
  recipientId : Int
  approvalFlowExecutionId : Int
  approvalNodeExecutionId : Int
  approvalId : Int
  read : Bool
  creatorId : Int
  updaterId : Int
  createTime : Int
deriving DecidableEq, Repr

/-- The relational store: each table is a list of rows; `next*Id` model the
serial id sequences, `now` the database clock used for `create_time`. -/
structure StoreState where
  flows : List FlowRow
  nodes : List NodeRow
  executions : List ExecRow
  nodeExecutions : List NodeExecRow
  approvals : List ApprovalRow
  issues : List IssueRow
  rules : List StoreRule
  nextExecutionId : Int
  nextNodeExecutionId : Int
  nextApprovalId : Int
  now : Int
deriving DecidableEq, Repr

/-! ### List lookups and updates (SQL `WHERE id = ?` etc.) -/

/-- `SELECT ... FROM approval_flow WHERE id = ?` (first matching row). -/
def findFlow : List FlowRow → Int → Option FlowRow
  | [], _ => none
  | f :: rest, i => if f.id = i then some f else findFlow rest i

/-- `SELECT ... FROM approval_node WHERE id = ?`. -/
def findNode : List NodeRow → Int → Option NodeRow
  | [], _ => none
  | n :: rest, i => if n.id = i then some n else findNode rest i

/-- `SELECT ... FROM approval_flow_execution WHERE id = ?`. -/
def findExec : List ExecRow → Int → Option ExecRow
  | [], _ => none
  | e :: rest, i => if e.id = i then some e else findExec rest i

/-- `SELECT ... FROM approval_node_execution WHERE id = ?`. -/
def findNodeExec : List NodeExecRow → Int → Option NodeExecRow
  | [], _ => none
  | x :: rest, i => if x.id = i then some x else findNodeExec rest i

/-- `SELECT id FROM approval_node_execution WHERE execution_id = ? AND node_id = ?`. -/
def findNodeExecByNode : List NodeExecRow → Int → Int → Option NodeExecRow
  | [], _, _ => none
  | x :: rest, eid, nid =>
    if x.executionId = eid ∧ x.nodeId = nid then some x else findNodeExecByNode rest eid nid

/-- `SELECT ... FROM issue WHERE id = ?` (the provider's `GetIssue`). -/
def findIssue : List IssueRow → Int → Option IssueRow
  | [], _ => none
  | x :: rest, i => if x.id = i then some x else findIssue rest i

/-- `SELECT ... FROM notification WHERE id = ?` (`getNotification`). -/
def findNotification : List NotificationRow → Int → Option NotificationRow
  | [], _ => none
  | n :: rest, i => if n.id = i then some n else findNotification rest i

/-- `UPDATE approval_node_execution SET status = ? WHERE id = ?`. -/
def setNodeExecStatus (l : List NodeExecRow) (i : Int) (st : NodeExecStatus) : List NodeExecRow :=
  l.map fun x => if x.id = i then { x with status := st } else x

/-- `UPDATE approval_flow_execution SET status = ? WHERE id = ?`. -/
def setExecStatus (l : List ExecRow) (i : Int) (st : ExecStatus) : List ExecRow :=
  l.map fun e => if e.id = i then { e with status := st } else e

/-- Insert into a list sorted descending by `key` (stable: equal keys keep
their relative order, matching a stable `ORDER BY ... DESC`). -/
def insertDescBy (key : α → Int) (x : α) : List α → List α
  | [] => [x]
  | y :: ys => if key y < key x then x :: y :: ys else y :: insertDescBy key x ys

/-- Insertion sort, descending by `key` (`ORDER BY key DESC`). -/
def sortDescBy (key : α → Int) : List α → List α
  | [] => []
  | x :: xs => insertDescBy key x (sortDescBy key xs)

/-- Insert into a list sorted ascending by `key`. -/
def insertAscBy (key : α → Int) (x : α) : List α → List α
  | [] => [x]
  | y :: ys => if key x < key y then x :: y :: ys else y :: insertAscBy key x ys

/-- Insertion sort, ascending by `key` (`ORDER BY key`). -/
def sortAscBy (key : α → Int) : List α → List α
  | [] => []
  | x :: xs => insertAscBy key x (sortAscBy key xs)

/-! ### `Store.CreateApproval` (approval_flow.go lines 635-777) -/

/-- The input of `Store.CreateApproval` (the fields the caller sets). -/
structure ApprovalCreate where
  nodeExecutionId : Int
  userId : Int
  status : ApprovalStatus
  comment : String
deriving DecidableEq, Repr

/-- The approval row inserted by `CreateApproval` (serial id from the sequence). -/
def newApprovalRow (s : StoreState) (c : ApprovalCreate) : ApprovalRow :=
  { id := s.nextApprovalId
    nodeExecutionId := c.nodeExecutionId
    userId := c.userId
    status := c.status
    comment := c.comment }

/-- `getApprovals` restricted to one node execution: `SELECT ... FROM approval
WHERE node_execution_id = ?`. The Go reads the committed rows through `s.db`
(they exclude the row just inserted in the open transaction) and then appends
the freshly inserted approval, so the recount always sees old rows plus the
new one. -/
def nodeApprovalsAfter (s : StoreState) (c : ApprovalCreate) : List ApprovalRow :=
  (s.approvals.filter fun a => decide (a.nodeExecutionId = c.nodeExecutionId)) ++ [newApprovalRow s c]

/-- Number of APPROVED decisions in a decision list (`approvedCount`). -/
def countApproved (l : List ApprovalRow) : Nat :=
  (l.filter fun a => decide (a.status = ApprovalStatus.approved)).length

/-- Number of REJECTED decisions in a decision list (`rejectedCount`). -/
def countRejected (l : List ApprovalRow) : Nat :=
  (l.filter fun a => decide (a.status = ApprovalStatus.rejected)).length

/-- The node-execution status computed from the decision recount
(approval_flow.go lines 718-727): any rejection wins, then quorum, else
the node stays in progress. -/
def decidedNodeStatus (required : Int) (apps : List ApprovalRow) : NodeExecStatus :=
  if 0 < countRejected apps then NodeExecStatus.rejected
  else if required ≤ (countApproved apps : Int) then NodeExecStatus.approved
  else NodeExecStatus.inProgress

/-- `SELECT id FROM approval_node WHERE flow_id = ? AND id > ? ORDER BY id
LIMIT 1`: the least node id above `nid` in flow `fid`. -/
def minNodeIdAbove (nodes : List NodeRow) (fid nid : Int) : Option Int :=
  (nodes.filter fun n => decide (n.flowId = fid ∧ nid < n.id)).foldl
    (fun acc n =>
      match acc with
      | none => some n.id
      | some m => some (min m n.id))
    none

/-- The next-node query of `CreateApproval` (lines 739-743): the inner
subquery resolves the execution's flow id; a missing execution makes the
subquery NULL, the outer query returns no row, and `nextNodeID` stays 0. -/
def nextNodeAfter (s : StoreState) (ne : NodeExecRow) : Option Int :=
  match findExec s.executions ne.executionId with
  | none => none
  | some e => minNodeIdAbove s.nodes e.flowId ne.nodeId

/-- State after the first two transaction writes of `CreateApproval`: the
approval row is inserted and the node execution's status set to the decided
status `st` (lines 669-734). -/
def approvalInsertedState (s : StoreState) (c : ApprovalCreate) (st : NodeExecStatus) :
    StoreState :=
  { s with
    approvals := s.approvals ++ [newApprovalRow s c]
    nextApprovalId := s.nextApprovalId + 1
    nodeExecutions := setNodeExecStatus s.nodeExecutions c.nodeExecutionId st }

/-- The tail of `CreateApproval` after the decided node status `st` is known
(lines 736-776): on approval either promote the next node execution or mark
the flow execution approved; on rejection mark the flow execution rejected;
otherwise only the approval insert and node update remain. -/
def approvalStep (s : StoreState) (c : ApprovalCreate) (ne : NodeExecRow) :
    NodeExecStatus → Except String (StoreState × ApprovalRow)
  | NodeExecStatus.approved =>
    match nextNodeAfter s ne with
    | some nid =>
      if 0 < nid then
        match findNodeExecByNode s.nodeExecutions ne.executionId nid with
        | none => .error "failed to get next approval node execution"
        | some nx =>
          .ok ({ approvalInsertedState s c NodeExecStatus.approved with
                  nodeExecutions :=
                    setNodeExecStatus
                      (approvalInsertedState s c NodeExecStatus.approved).nodeExecutions nx.id
                      NodeExecStatus.inProgress },
               newApprovalRow s c)
      else
        .ok ({ approvalInsertedState s c NodeExecStatus.approved with
                executions :=
                  setExecStatus (approvalInsertedState s c NodeExecStatus.approved).executions
                    ne.executionId ExecStatus.approved },
             newApprovalRow s c)
    | none =>
      .ok ({ approvalInsertedState s c NodeExecStatus.approved with
              executions :=
                setExecStatus (approvalInsertedState s c NodeExecStatus.approved).executions
                  ne.executionId ExecStatus.approved },
           newApprovalRow s c)
  | NodeExecStatus.rejected =>
    .ok ({ approvalInsertedState s c NodeExecStatus.rejected with
            executions :=
              setExecStatus (approvalInsertedState s c NodeExecStatus.rejected).executions
                ne.executionId ExecStatus.rejected },
         newApprovalRow s c)
  | st => .ok (approvalInsertedState s c st, newApprovalRow s c)

/-- `Store.CreateApproval`: validate, insert the approval, recount the node's
decisions, update the node-execution status, and either promote the next node
or settle the flow execution. There is no duplicate-decision check, no check
of the node execution's or the execution's current status, and no position
check — the Go performs none of these. -/
def CreateApproval (s : StoreState) (c : ApprovalCreate) :
    Except String (StoreState × ApprovalRow) :=
  if c.nodeExecutionId ≤ 0 then .error "node execution ID is required"
  else if c.userId ≤ 0 then .error "user ID is required"
  else if c.status = ApprovalStatus.unspecified then .error "status is required"
  else
    match findNodeExec s.nodeExecutions c.nodeExecutionId with
    | none => .error "approval node execution not found"
    | some ne =>
      match findNode s.nodes ne.nodeId with
      | none => .error "failed to get required approvals for node"
      | some nd =>
        approvalStep s c ne (decidedNodeStatus nd.requiredApprovals (nodeApprovalsAfter s c))

/-! ### `Store.CreateApprovalFlowExecution` (approval_flow.go lines 395-471) -/

/-- The input of `Store.CreateApprovalFlowExecution`. -/
structure ExecCreate where
  flowId : Int
  issueId : Int
  level : SensitiveDataLevel
  status : ExecStatus
  creatorId : Int
deriving DecidableEq, Repr

/-- The execution row inserted by `CreateApprovalFlowExecution`. -/
def newExecRow (s : StoreState) (c : ExecCreate) : ExecRow :=
  { id := s.nextExecutionId
    flowId := c.flowId
    issueId := c.issueId
    level := c.level
    status := c.status
    creatorId := c.creatorId
    createTime := s.now }

/-- `getApprovalNodes`: the flow's nodes, `ORDER BY id`. -/
def nodesOfFlow (nodes : List NodeRow) (fid : Int) : List NodeRow :=
  sortAscBy (fun n => n.id) (nodes.filter fun n => decide (n.flowId = fid))

/-- The status each fresh node execution gets (lines 453-457): the first node
of the flow (`len(nodes) == 1 || node.ID == nodes[0].ID`) starts IN_PROGRESS,
the rest PENDING. -/
def initialNodeExecStatus (ns : List NodeRow) (n : NodeRow) : NodeExecStatus :=
  if ns.length = 1 then NodeExecStatus.inProgress
  else
    match ns with
    | [] => NodeExecStatus.pending
    | h :: _ => if n.id = h.id then NodeExecStatus.inProgress else NodeExecStatus.pending

/-- The node-execution rows inserted for a fresh execution, ids assigned
sequentially from `startId`. -/
def mkNodeExecs (ns : List NodeRow) (eid : Int) : List NodeRow → Int → List NodeExecRow
  | [], _ => []
  | n :: rest, i =>
    { id := i, executionId := eid, nodeId := n.id, status := initialNodeExecStatus ns n } ::
      mkNodeExecs ns eid rest (i + 1)

/-- `Store.CreateApprovalFlowExecution`: validate the input fields, require
the flow to exist, then insert the execution and one node execution per flow
node. The Go checks neither whether the flow is enabled, nor whether a
non-terminal execution already exists for the issue, nor whether the flow has
any nodes. -/
def CreateApprovalFlowExecution (s : StoreState) (c : ExecCreate) :
    Except String (StoreState × ExecRow) :=
  if c.flowId ≤ 0 then .error "flow ID is required"
  else if c.issueId ≤ 0 then .error "issue ID is required"
  else if c.level = SensitiveDataLevel.unspecified then .error "sensitivity level is required"
  else if c.status = ExecStatus.unspecified then .error "status is required"
  else
    match findFlow s.flows c.flowId with
    | none => .error "approval flow not found"
    | some _ =>
      let e := newExecRow s c
      let ns := nodesOfFlow s.nodes c.flowId
      let nes := mkNodeExecs ns e.id ns s.nextNodeExecutionId
      .ok ({ s with
              executions := s.executions ++ [e]
              nodeExecutions := s.nodeExecutions ++ nes
              nextExecutionId := s.nextExecutionId + 1
              nextNodeExecutionId := s.nextNodeExecutionId + nes.length },
           e)

/-! ### `Store.UpdateApprovalFlowExecution` (approval_flow.go lines 544-569) -/

/-- The input of `Store.UpdateApprovalFlowExecution` (only `status` and
`updater_id` are written; the updater id is not modelled on `ExecRow` since
no claim mentions it). -/
structure ExecUpdate where
  id : Int
  status : ExecStatus
deriving DecidableEq, Repr

/-- `Store.UpdateApprovalFlowExecution`: overwrite the status of an existing
execution. The Go does not check the current status, so terminal executions
are overwritten like any other. -/
def UpdateApprovalFlowExecution (s : StoreState) (u : ExecUpdate) :
    Except String (StoreState × ExecRow) :=
  if u.id ≤ 0 then .error "invalid approval flow execution ID"
  else
    match findExec s.executions u.id with
    | none => .error "approval flow execution not found"
    | some _ =>
      let s' : StoreState := { s with executions := setExecStatus s.executions u.id u.status }
      match findExec s'.executions u.id with
      | none => .error "approval flow execution not found"
      | some e => .ok (s', e)

/-! ### `Store.UpdateNotification` (notification store, `UpdateNotification`) -/

/-- The input of `Store.UpdateNotification`. The Go builds the SET clause
from the request: `read` when present and `updater_id` when positive. (The
update path treats `Read` as nullable — only a provided value is written.) -/
structure NotificationUpdate where
  id : Int
  read : Option Bool
  updaterId : Int
deriving DecidableEq, Repr

/-- The row rewrite done by `UPDATE notification SET ... WHERE id = ?`:
only `read` and `updater_id` are ever in the SET clause. -/
def applyNotificationUpdate (u : NotificationUpdate) (n : NotificationRow) : NotificationRow :=
  { n with
    read := u.read.getD n.read
    updaterId := if 0 < u.updaterId then u.updaterId else n.updaterId }

/-- `Store.UpdateNotification`: validate, require at least one field to set,
update the matching row, fail when nothing matched, and re-read the row. -/
def UpdateNotification (notifs : List NotificationRow) (u : NotificationUpdate) :
    Except String (List NotificationRow × NotificationRow) :=
  if u.id ≤ 0 then .error "notification ID is required"
  else if u.read.isNone ∧ u.updaterId ≤ 0 then .error "no fields to update"
  else if (notifs.filter fun n => decide (n.id = u.id)).length = 0 then
    .error "notification not found"
  else
    match findNotification
        (notifs.map fun n => if n.id = u.id then applyNotificationUpdate u n else n) u.id with
    | none => .error "notification not found"
    | some n =>
      .ok (notifs.map fun n => if n.id = u.id then applyNotificationUpdate u n else n, n)

/-! ### The gate: `SensitiveDataChecker.Check` (sensitive_data_checker.go) -/

/-- A detected sensitive-data change (`store.SensitiveDataChange`). -/
structure SensitiveDataChangeRow where
  tableName : String
  fieldName : String
  level : SensitiveDataLevel
  ruleId : Int
deriving DecidableEq, Repr

/-- The checker's plan input. -/
structure Plan where
  issueId : Int
  statement : String
deriving DecidableEq, Repr

/-- Outcome of `SensitiveDataChecker.Check`: `allow` is the nil return, the
other constructors are the distinct error returns of the Go function. -/
inductive CheckResult where
  | allow
  | errNoIssue
  | errBlockInProgress (st : ExecStatus)
  | errDenyRejected
  | errNoEnabledFlow (lvl : SensitiveDataLevel)
  | errBlockCreated (execId : Int)
  | errCreateFailed (msg : String)
deriving DecidableEq, Repr

/-- `ListApprovalFlowExecutions` with filter `{IssueID: i}`: the issue clause
is added only when `i > 0`; rows come back `ORDER BY create_time DESC`. -/
def listExecutionsForIssue (s : StoreState) (i : Int) : List ExecRow :=
  sortDescBy (fun e => e.createTime)
    (if 0 < i then s.executions.filter fun e => decide (e.issueId = i) else s.executions)

/-- `ListApprovalFlows` with filter `{SensitivityLevel: lvl, Enabled: enabled}`:
each clause is added only when set; rows come back `ORDER BY create_time DESC`. -/
def listFlowsFiltered (s : StoreState) (lvl : SensitiveDataLevel) (enabled : Option Bool) :
    List FlowRow :=
  sortDescBy (fun f => f.createTime)
    (s.flows.filter fun f =>
      (decide (lvl = SensitiveDataLevel.unspecified) || decide (f.level = lvl)) &&
      (match enabled with
       | none => true
       | some b => decide (f.enabled = b)))

/-- The plan checker's `parseSchemaChange`: a placeholder that ignores the
statement and reports one dummy table and column, forcing the approval flow
for every schema change. -/
def parseSchemaChangePC (_statement : String) : List String × List String :=
  (["dummy_table"], ["dummy_column"])

/-- Inner loop of the plan checker's `detectSensitiveDataChanges`: one HIGH
change per column of the given table (the rules are ignored). -/
def pcChangesForTable (t : String) : List String → List SensitiveDataChangeRow
  | [] => []
  | c :: cs =>
    { tableName := t, fieldName := c, level := SensitiveDataLevel.high, ruleId := 0 } ::
      pcChangesForTable t cs

/-- The plan checker's `detectSensitiveDataChanges`: for demonstration the Go
marks every (table, column) pair as a HIGH-sensitivity change without
consulting the rules. -/
def pcDetectChanges (_rules : List StoreRule) (columns : List String) :
    List String → List SensitiveDataChangeRow
  | [] => []
  | t :: ts => pcChangesForTable t columns ++ pcDetectChanges _rules columns ts

/-- `highestSensitivityLevel` fold: `if change.SensitivityLevel > highest`. -/
def maxLevelOf (changes : List SensitiveDataChangeRow) : SensitiveDataLevel :=
  changes.foldl
    (fun acc ch => if acc.toNat < ch.level.toNat then ch.level else acc)
    SensitiveDataLevel.unspecified

/-- The tail of `Check` once no handled execution status returned early:
parse the statement, detect changes, and either admit, fail for a missing
enabled flow, or create an execution and block. -/
def checkAfterExecutions (s : StoreState) (issue : IssueRow) (plan : Plan) :
    CheckResult × StoreState :=
  let tc := parseSchemaChangePC plan.statement
  let changes := pcDetectChanges s.rules tc.2 tc.1
  if changes.length = 0 then (CheckResult.allow, s)
  else
    let highest := maxLevelOf changes
    match listFlowsFiltered s highest (some true) with
    | [] => (CheckResult.errNoEnabledFlow highest, s)
    | f :: _ =>
      match CreateApprovalFlowExecution s
          { flowId := f.id, issueId := issue.id, level := highest,
            status := ExecStatus.inProgress, creatorId := issue.creatorId } with
      | .error msg => (CheckResult.errCreateFailed msg, s)
      | .ok (s', e) => (CheckResult.errBlockCreated e.id, s')

/-- `SensitiveDataChecker.Check`. The switch over an existing execution's
status has cases for UNSPECIFIED/PENDING/IN_PROGRESS (block), REJECTED
(deny) and APPROVED (admit) — and no CANCELLED case, so a CANCELLED
execution falls out of the switch and the check continues into the
sensitive-data evaluation below it. -/
def sensitiveDataCheck (s : StoreState) (plan : Plan) : CheckResult × StoreState :=
  match findIssue s.issues plan.issueId with
  | none => (CheckResult.errNoIssue, s)
  | some issue =>
    match listExecutionsForIssue s issue.id with
    | e :: _ =>
      match e.status with
      | ExecStatus.unspecified => (CheckResult.errBlockInProgress e.status, s)
      | ExecStatus.pending => (CheckResult.errBlockInProgress e.status, s)
      | ExecStatus.inProgress => (CheckResult.errBlockInProgress e.status, s)
      | ExecStatus.rejected => (CheckResult.errDenyRejected, s)
      | ExecStatus.approved => (CheckResult.allow, s)
      | ExecStatus.cancelled => checkAfterExecutions s issue plan
    | [] => checkAfterExecutions s issue plan

/-! ### The v1 flow selector (sensitive_data_service.go lines 284-303, 422-473) -/

/-- `v1.ApprovalStep_ApprovalType`. -/
inductive ApprovalTypeV1 where
  | unspecified
  | all
  | any
deriving DecidableEq, Repr

/-- `v1.ApprovalStep`. -/
structure ApprovalStepV1 where
  step : Int
  approvers : List String
  approvalType : ApprovalTypeV1
deriving DecidableEq, Repr

/-- `v1.ApprovalFlow` as used by the selector (title and description are
presentation strings not mentioned by any claim and are omitted; `enabled`
of a freshly constructed default flow is the Go zero value `false`). -/
structure ApprovalFlowV1 where
  name : String
  level : SensitiveDataLevel
  enabled : Bool
  steps : List ApprovalStepV1
deriving DecidableEq, Repr

/-- `getDefaultApprovalFlow`: the built-in default flow per level; `none`
for UNSPECIFIED (the Go default branch returns nil). -/
def getDefaultApprovalFlow (parent : String) (level : SensitiveDataLevel) :
    Option ApprovalFlowV1 :=
  match level with
  | SensitiveDataLevel.high =>
    some { name := parent ++ "/approvalFlows/high-sensitivity-flow"
           level := SensitiveDataLevel.high
           enabled := false
           steps := [{ step := 1, approvers := ["roles/security-admin"],
                       approvalType := ApprovalTypeV1.all },
                     { step := 2, approvers := ["roles/dba"],
                       approvalType := ApprovalTypeV1.all }] }
  | SensitiveDataLevel.medium =>
    some { name := parent ++ "/approvalFlows/medium-sensitivity-flow"
           level := SensitiveDataLevel.medium
           enabled := false
           steps := [{ step := 1, approvers := ["roles/dba"],
                       approvalType := ApprovalTypeV1.all }] }
  | SensitiveDataLevel.low =>
    some { name := parent ++ "/approvalFlows/low-sensitivity-flow"
           level := SensitiveDataLevel.low
           enabled := false
           steps := [{ step := 1, approvers := ["self"],
                       approvalType := ApprovalTypeV1.all }] }
  | SensitiveDataLevel.unspecified => none

/-- The selection loop of `EvaluateSensitiveDataChange` step 4: take the
first flow whose level equals the highest level (the Go `break`s on the
first hit and never consults `enabled`). -/
def findFlowByLevelLoop : List ApprovalFlowV1 → SensitiveDataLevel → Option ApprovalFlowV1
  | [], _ => none
  | f :: rest, lvl => if f.level = lvl then some f else findFlowByLevelLoop rest lvl

/-- Step 4 of `EvaluateSensitiveDataChange`: for a specified highest level,
pick the first level-matching flow, else fall back to the built-in default;
for UNSPECIFIED no flow is required. -/
def requiredApprovalFlowFor (parent : String) (flows : List ApprovalFlowV1)
    (highestLevel : SensitiveDataLevel) : Option ApprovalFlowV1 :=
  if highestLevel ≠ SensitiveDataLevel.unspecified then
    match findFlowByLevelLoop flows highestLevel with
    | some f => some f
    | none => getDefaultApprovalFlow parent highestLevel
  else none

/-! ### Rule matching (sensitive_data_service.go `isRuleMatch`, advisor
`detectSensitiveDataChanges`) -/

/-- `v1.SensitiveDataRule` as used by `isRuleMatch`. -/
structure SensitiveDataRuleV1 where
  table : String
  fieldPattern : String
  level : SensitiveDataLevel
deriving DecidableEq, Repr

/-- Character-level helper for `lastPathSegment`: the run of characters after
the final slash. -/
def lastSegAux : List Char → List Char → List Char
  | [], acc => acc
  | ch :: rest, acc =>
    if ch = '/' then lastSegAux rest [] else lastSegAux rest (acc ++ [ch])

/-- The Go idiom `parts := strings.Split(s, "/"); parts[len(parts)-1]`: the
segment after the last slash (the whole string when there is no slash). -/
def lastPathSegment (s : String) : String :=
  String.mk (lastSegAux s.data [])

/-- `isRuleMatch` (lines 394-419). The regexp collaborator
(`regexp.MatchString`) is abstracted as `matchRegex pattern input`; the Go
discards the compile error so a failed compile yields `false`. A non-empty
rule table is compared by its last path segment with `!=` — an exact,
case-sensitive string comparison. -/
def isRuleMatch (matchRegex : String → String → Bool) (rule : SensitiveDataRuleV1)
    (table field : String) : Bool :=
  if rule.table ≠ "" ∧ lastPathSegment rule.table ≠ table then false
  else if rule.fieldPattern ≠ "" ∧
      ¬ matchRegex ("^" ++ (rule.fieldPattern.replace "*" ".*") ++ "$") field then false
  else true

/-- The advisor's per-rule field loop: match when a field's name equals the
column, or its regex compiles (`compileRegex` abstracts `regexp.Compile`;
`none` models a compile error, which skips the field) and matches the column. -/
def advisorFieldMatches (compileRegex : String → Option (String → Bool)) (column : String) :
    List RuleField → Bool
  | [] => false
  | f :: rest =>
    if f.fieldName = column then true
    else if f.regex ≠ "" then
      match compileRegex f.regex with
      | none => advisorFieldMatches compileRegex column rest
      | some m =>
        if m column then true else advisorFieldMatches compileRegex column rest
    else advisorFieldMatches compileRegex column rest

/-- The advisor's rule loop for one (table, column) pair: skip rules whose
non-empty table name differs (case-sensitively) from the table, and stop at
the first rule whose fields match the column. -/
def advisorFirstMatch (compileRegex : String → Option (String → Bool))
    (table column : String) : List StoreRule → Option StoreRule
  | [] => none
  | r :: rest =>
    if r.tableName ≠ "" ∧ r.tableName ≠ table then
      advisorFirstMatch compileRegex table column rest
    else if advisorFieldMatches compileRegex column r.fields then some r
    else advisorFirstMatch compileRegex table column rest

/-- Inner column loop of the advisor's `detectSensitiveDataChanges`. -/
def advisorChangesForTable (compileRegex : String → Option (String → Bool))
    (rules : List StoreRule) (table : String) : List String → List SensitiveDataChangeRow
  | [] => []
  | c :: cs =>
    match advisorFirstMatch compileRegex table c rules with
    | some r =>
      { tableName := table, fieldName := c, level := r.level, ruleId := r.id } ::
        advisorChangesForTable compileRegex rules table cs
    | none => advisorChangesForTable compileRegex rules table cs

/-- The advisor's `detectSensitiveDataChanges` (part of the advisor plugin):
for each (table, column) pair record a change for the first matching rule. -/
def advisorDetectChanges (compileRegex : String → Option (String → Bool))
    (rules : List StoreRule) (columns : List String) :
    List String → List SensitiveDataChangeRow
  | [] => []
  | t :: ts =>
    advisorChangesForTable compileRegex rules t columns ++
      advisorDetectChanges compileRegex rules columns ts

/-! ### Observers used to state the claims -/

/-- Number of stored decisions for one `(nodeExecutionId, userId)` pair. -/
def pairCount (l : List ApprovalRow) (neid uid : Int) : Nat :=
  (l.filter fun a => decide (a.nodeExecutionId = neid ∧ a.userId = uid)).length

/-- Whether a store call returned without error. -/
def exceptOk : Except String α → Bool
  | .ok _ => true
  | .error _ => false

/-- The store state after a call: the new state on success, the unchanged
state when the transaction rolled back. -/
def runState (r : Except String (StoreState × α)) (fallback : StoreState) : StoreState :=
  match r with
  | .ok p => p.1
  | .error _ => fallback

/-- Whether an execution status is terminal (APPROVED, REJECTED or CANCELLED). -/
def ExecStatus.isTerminal : ExecStatus → Bool
  | .approved => true
  | .rejected => true
  | .cancelled => true
  | _ => false

/-! ### General lemmas about the list primitives -/

theorem mem_insertDescBy {key : α → Int} {x y : α} {l : List α} :
    y ∈ insertDescBy key x l ↔ y = x ∨ y ∈ l := by
  induction l with
  | nil => simp [insertDescBy]
  | cons z zs ih =>
    simp only [insertDescBy]
    split
    · simp
    · simp only [List.mem_cons, ih]
      tauto

theorem mem_sortDescBy {key : α → Int} {y : α} {l : List α} :
    y ∈ sortDescBy key l ↔ y ∈ l := by
  induction l with
  | nil => simp [sortDescBy]
  | cons z zs ih => simp [sortDescBy, mem_insertDescBy, ih]

theorem findFlow_exists_of_mem {l : List FlowRow} {f : FlowRow} (hf : f ∈ l) :
    ∃ g, findFlow l f.id = some g := by
  induction l with
  | nil => cases hf
  | cons x xs ih =>
    by_cases hx : x.id = f.id
    · exact ⟨x, by simp [findFlow, hx]⟩
    · rcases List.mem_cons.1 hf with rfl | hf2
      · exact absurd rfl hx
      · obtain ⟨g, hg⟩ := ih hf2
        exact ⟨g, by simp [findFlow, hx, hg]⟩

theorem findNodeExec_eq_some {l : List NodeExecRow} {i : Int} {x : NodeExecRow}
    (h : findNodeExec l i = some x) : x ∈ l ∧ x.id = i := by
  induction l with
  | nil => simp [findNodeExec] at h
  | cons y ys ih =>
    simp only [findNodeExec] at h
    split at h
    · cases h
      exact ⟨List.mem_cons_self _ _, by assumption⟩
    · obtain ⟨hm, hi⟩ := ih h
      exact ⟨List.mem_cons_of_mem _ hm, hi⟩

theorem findExec_eq_some {l : List ExecRow} {i : Int} {e : ExecRow}
    (h : findExec l i = some e) : e ∈ l ∧ e.id = i := by
  induction l with
  | nil => simp [findExec] at h
  | cons y ys ih =>
    simp only [findExec] at h
    split at h
    · cases h
      exact ⟨List.mem_cons_self _ _, by assumption⟩
    · obtain ⟨hm, hi⟩ := ih h
      exact ⟨List.mem_cons_of_mem _ hm, hi⟩

theorem findNodeExecByNode_eq_some {l : List NodeExecRow} {eid nid : Int} {x : NodeExecRow}
    (h : findNodeExecByNode l eid nid = some x) :
    x ∈ l ∧ x.executionId = eid ∧ x.nodeId = nid := by
  induction l with
  | nil => simp [findNodeExecByNode] at h
  | cons y ys ih =>
    simp only [findNodeExecByNode] at h
    split at h
    · cases h
      exact ⟨List.mem_cons_self _ _, by assumption⟩
    · obtain ⟨hm, hi⟩ := ih h
      exact ⟨List.mem_cons_of_mem _ hm, hi⟩

theorem findNodeExec_map {g : NodeExecRow → NodeExecRow} (hg : ∀ x, (g x).id = x.id)
    (l : List NodeExecRow) (i : Int) :
    findNodeExec (l.map g) i = (findNodeExec l i).map g := by
  induction l with
  | nil => rfl
  | cons x xs ih =>
    simp only [List.map_cons, findNodeExec, hg x]
    split
    · rfl
    · exact ih

theorem findExec_map {g : ExecRow → ExecRow} (hg : ∀ x, (g x).id = x.id)
    (l : List ExecRow) (i : Int) :
    findExec (l.map g) i = (findExec l i).map g := by
  induction l with
  | nil => rfl
  | cons x xs ih =>
    simp only [List.map_cons, findExec, hg x]
    split
    · rfl
    · exact ih

theorem findNodeExec_set (l : List NodeExecRow) (i : Int) (st : NodeExecStatus) (j : Int) :
    findNodeExec (setNodeExecStatus l i st) j =
      (findNodeExec l j).map fun x => if x.id = i then { x with status := st } else x := by
  refine findNodeExec_map (fun x => ?_) l j
  by_cases hx : x.id = i <;> simp [hx]

theorem findExec_set (l : List ExecRow) (i : Int) (st : ExecStatus) (j : Int) :
    findExec (setExecStatus l i st) j =
      (findExec l j).map fun e => if e.id = i then { e with status := st } else e := by
  refine findExec_map (fun e => ?_) l j
  by_cases he : e.id = i <;> simp [he]

theorem mem_setNodeExecStatus_of_ne {l : List NodeExecRow} {x : NodeExecRow} {i : Int}
    (hx : x ∈ l) (hne : x.id ≠ i) (st : NodeExecStatus) : x ∈ setNodeExecStatus l i st := by
  unfold setNodeExecStatus
  refine List.mem_map.2 ⟨x, hx, ?_⟩
  simp [hne]

theorem countRejected_append (l1 l2 : List ApprovalRow) :
    countRejected (l1 ++ l2) = countRejected l1 + countRejected l2 := by
  simp [countRejected, List.filter_append]

theorem countRejected_pos_of_mem {a : ApprovalRow} {l : List ApprovalRow}
    (ha : a ∈ l) (hst : a.status = ApprovalStatus.rejected) : 0 < countRejected l := by
  have hmem : a ∈ l.filter fun x => decide (x.status = ApprovalStatus.rejected) :=
    List.mem_filter.2 ⟨ha, by simp [hst]⟩
  exact List.length_pos.2 (List.ne_nil_of_mem hmem)

theorem findNodeExec_exists_of_mem {l : List NodeExecRow} {x : NodeExecRow} (hx : x ∈ l) :
    ∃ y, findNodeExec l x.id = some y := by
  induction l with
  | nil => cases hx
  | cons z zs ih =>
    by_cases hz : z.id = x.id
    · exact ⟨z, by simp [findNodeExec, hz]⟩
    · rcases List.mem_cons.1 hx with rfl | hx2
      · exact absurd rfl hz
      · obtain ⟨y, hy⟩ := ih hx2
        exact ⟨y, by simp [findNodeExec, hz, hy]⟩

theorem pairCount_append_single (l : List ApprovalRow) (a : ApprovalRow) (neid uid : Int) :
    pairCount (l ++ [a]) neid uid =
      pairCount l neid uid + (if a.nodeExecutionId = neid ∧ a.userId = uid then 1 else 0) := by
  by_cases h : a.nodeExecutionId = neid ∧ a.userId = uid <;>
    simp [pairCount, List.filter_append, h]

/-! ### Reduction lemmas for the store operations -/

theorem createApproval_eq_step (s : StoreState) (c : ApprovalCreate)
    (ne : NodeExecRow) (nd : NodeRow)
    (h1 : 0 < c.nodeExecutionId) (h2 : 0 < c.userId)
    (h3 : c.status ≠ ApprovalStatus.unspecified)
    (h4 : findNodeExec s.nodeExecutions c.nodeExecutionId = some ne)
    (h5 : findNode s.nodes ne.nodeId = some nd) :
    CreateApproval s c =
      approvalStep s c ne (decidedNodeStatus nd.requiredApprovals (nodeApprovalsAfter s c)) := by
  unfold CreateApproval
  rw [if_neg (by omega), if_neg (by omega), if_neg h3]
  simp only [h4, h5]

theorem approvalStep_inProgress (s : StoreState) (c : ApprovalCreate) (ne : NodeExecRow) :
    approvalStep s c ne NodeExecStatus.inProgress =
      Except.ok (approvalInsertedState s c NodeExecStatus.inProgress, newApprovalRow s c) := rfl

theorem approvalStep_rejected (s : StoreState) (c : ApprovalCreate) (ne : NodeExecRow) :
    approvalStep s c ne NodeExecStatus.rejected =
      Except.ok ({ approvalInsertedState s c NodeExecStatus.rejected with
                    executions :=
                      setExecStatus (approvalInsertedState s c NodeExecStatus.rejected).executions
                        ne.executionId ExecStatus.rejected },
                 newApprovalRow s c) := rfl

theorem approvalStep_approved_last (s : StoreState) (c : ApprovalCreate) (ne : NodeExecRow)
    (hnone : nextNodeAfter s ne = none) :
    approvalStep s c ne NodeExecStatus.approved =
      Except.ok ({ approvalInsertedState s c NodeExecStatus.approved with
                    executions :=
                      setExecStatus (approvalInsertedState s c NodeExecStatus.approved).executions
                        ne.executionId ExecStatus.approved },
                 newApprovalRow s c) := by
  unfold approvalStep
  rw [hnone]

theorem approvalStep_approved_promote (s : StoreState) (c : ApprovalCreate) (ne : NodeExecRow)
    (nid : Int) (nx : NodeExecRow)
    (hsome : nextNodeAfter s ne = some nid) (hpos : 0 < nid)
    (hnx : findNodeExecByNode s.nodeExecutions ne.executionId nid = some nx) :
    approvalStep s c ne NodeExecStatus.approved =
      Except.ok ({ approvalInsertedState s c NodeExecStatus.approved with
                    nodeExecutions :=
                      setNodeExecStatus
                        (approvalInsertedState s c NodeExecStatus.approved).nodeExecutions nx.id
                        NodeExecStatus.inProgress },
                 newApprovalRow s c) := by
  unfold approvalStep
  rw [hsome]
  dsimp only
  rw [if_pos hpos, hnx]

theorem createApproval_ok_shape (s : StoreState) (c : ApprovalCreate)
    (s' : StoreState) (row : ApprovalRow)
    (hok : CreateApproval s c = Except.ok (s', row)) :
    row = newApprovalRow s c ∧ s'.approvals = s.approvals ++ [newApprovalRow s c] := by
  unfold CreateApproval at hok
  repeat' split at hok
  all_goals
    first
      | exact Except.noConfusion hok
      | (unfold approvalStep at hok
         repeat' split at hok
         all_goals
           first
             | exact Except.noConfusion hok
             | (simp only [Except.ok.injEq, Prod.mk.injEq] at hok
                obtain ⟨hs, hr⟩ := hok
                subst hs
                subst hr
                exact ⟨rfl, by simp [approvalInsertedState]⟩))

theorem createExecution_ok (s : StoreState) (c : ExecCreate) (flow : FlowRow)
    (h1 : 0 < c.flowId) (h2 : 0 < c.issueId)
    (h3 : c.level ≠ SensitiveDataLevel.unspecified) (h4 : c.status ≠ ExecStatus.unspecified)
    (h5 : findFlow s.flows c.flowId = some flow) :
    CreateApprovalFlowExecution s c = Except.ok
      ({ s with
          executions := s.executions ++ [newExecRow s c]
          nodeExecutions := s.nodeExecutions ++
            mkNodeExecs (nodesOfFlow s.nodes c.flowId) (newExecRow s c).id
              (nodesOfFlow s.nodes c.flowId) s.nextNodeExecutionId
          nextExecutionId := s.nextExecutionId + 1
          nextNodeExecutionId := s.nextNodeExecutionId +
            (mkNodeExecs (nodesOfFlow s.nodes c.flowId) (newExecRow s c).id
              (nodesOfFlow s.nodes c.flowId) s.nextNodeExecutionId).length },
       newExecRow s c) := by
  unfold CreateApprovalFlowExecution
  rw [if_neg (by omega), if_neg (by omega), if_neg h3, if_neg h4]
  simp only [h5]

theorem checkAfterExecutions_cases (s : StoreState) (issue : IssueRow) (plan : Plan)
    (hip : 0 < issue.id) (hfp : ∀ f ∈ s.flows, 0 < f.id) :
    checkAfterExecutions s issue plan =
        (CheckResult.errNoEnabledFlow SensitiveDataLevel.high, s) ∨
      ∃ s', checkAfterExecutions s issue plan =
          (CheckResult.errBlockCreated s.nextExecutionId, s') ∧
        s'.executions.length = s.executions.length + 1 := by
  have key : checkAfterExecutions s issue plan =
      (match listFlowsFiltered s SensitiveDataLevel.high (some true) with
       | [] => (CheckResult.errNoEnabledFlow SensitiveDataLevel.high, s)
       | f :: _ =>
         match CreateApprovalFlowExecution s
             { flowId := f.id, issueId := issue.id, level := SensitiveDataLevel.high,
               status := ExecStatus.inProgress, creatorId := issue.creatorId } with
         | .error msg => (CheckResult.errCreateFailed msg, s)
         | .ok (s', e) => (CheckResult.errBlockCreated e.id, s')) := rfl
  rcases hl : listFlowsFiltered s SensitiveDataLevel.high (some true) with _ | ⟨f, fs⟩
  · left
    rw [key, hl]
  · right
    have hfmem : f ∈ s.flows := by
      have h1 : f ∈ listFlowsFiltered s SensitiveDataLevel.high (some true) := by
        rw [hl]
        exact List.mem_cons_self _ _
      have h2 := mem_sortDescBy.1 h1
      exact (List.mem_filter.1 h2).1
    obtain ⟨g, hg⟩ := findFlow_exists_of_mem hfmem
    have hrun := createExecution_ok s
      { flowId := f.id, issueId := issue.id, level := SensitiveDataLevel.high,
        status := ExecStatus.inProgress, creatorId := issue.creatorId } g
      (hfp f hfmem) hip (by simp) (by simp) hg
    have hcheck : checkAfterExecutions s issue plan =
        (CheckResult.errBlockCreated s.nextExecutionId,
          runState (CreateApprovalFlowExecution s
            { flowId := f.id, issueId := issue.id, level := SensitiveDataLevel.high,
              status := ExecStatus.inProgress, creatorId := issue.creatorId }) s) := by
      rw [key, hl]
      dsimp only
      rw [hrun]
      dsimp only [runState, newExecRow]
    refine ⟨_, hcheck, ?_⟩
    rw [hrun]
    simp [runState]

theorem findFlowByLevelLoop_first (pre : List ApprovalFlowV1) (f : ApprovalFlowV1)
    (post : List ApprovalFlowV1) (lvl : SensitiveDataLevel)
    (hf : f.level = lvl) (hpre : ∀ g ∈ pre, g.level ≠ lvl) :
    findFlowByLevelLoop (pre ++ f :: post) lvl = some f := by
  induction pre with
  | nil => simp [findFlowByLevelLoop, hf]
  | cons x xs ih =>
    have hx : x.level ≠ lvl := hpre x (List.mem_cons_self _ _)
    simp only [List.cons_append, findFlowByLevelLoop, if_neg hx]
    exact ih fun g hg => hpre g (List.mem_cons_of_mem _ hg)

theorem findFlowByLevelLoop_none (flows : List ApprovalFlowV1) (lvl : SensitiveDataLevel)
    (h : ∀ g ∈ flows, g.level ≠ lvl) : findFlowByLevelLoop flows lvl = none := by
  induction flows with
  | nil => rfl
  | cons x xs ih =>
    simp only [findFlowByLevelLoop, if_neg (h x (List.mem_cons_self _ _))]
    exact ih fun g hg => h g (List.mem_cons_of_mem _ hg)

/-! ## Claim C9: table matching in the rule matchers -/

/-- Concrete v1 rule whose table resolves to the name `Users`. -/
def c9rule : SensitiveDataRuleV1 :=
  { table := "projects/p/databases/d/tables/Users", fieldPattern := "",
    level := SensitiveDataLevel.high }

/-- Concrete store rule for table name `Users` with a field matching `email`. -/
def c9storeRule : StoreRule :=
  { id := 1, tableName := "Users", level := SensitiveDataLevel.high,
    fields := [{ fieldName := "email", regex := "" }] }

/-- C9 counterexample: the claim says table matching is case-insensitive, so a
rule for table `Users` matches a change to table `users`. In both matchers the
comparison is plain string inequality, hence case-sensitive: the rule for
`Users` does not match `users` (even with a regex oracle that matches
everything), while the exactly-cased table does match. -/
theorem tableMatch_case_counterexample :
    isRuleMatch (fun _ _ => true) c9rule "users" "email" = false ∧
    isRuleMatch (fun _ _ => true) c9rule "Users" "email" = true ∧
    advisorFirstMatch (fun _ => none) "users" "email" [c9storeRule] = none ∧
    advisorFirstMatch (fun _ => none) "Users" "email" [c9storeRule] = some c9storeRule := by
  decide

/-- C9 amended: a rule with a non-empty table pattern matches the table by
exact case-sensitive comparison of the last path segment of the rule's table
with the table name (so a rule for `Users` does not match `users`), while a
rule with an empty table pattern matches any table (the table argument is
irrelevant to the verdict). -/
theorem tableMatch_case_sensitive (matchRegex : String → String → Bool)
    (rule : SensitiveDataRuleV1) (table table2 field : String) :
    (rule.table ≠ "" → lastPathSegment rule.table ≠ table →
      isRuleMatch matchRegex rule table field = false) ∧
    (rule.table = "" →
      isRuleMatch matchRegex rule table field = isRuleMatch matchRegex rule table2 field) := by
  constructor
  · intro h1 h2
    simp [isRuleMatch, h1, h2]
  · intro h
    simp [isRuleMatch, h]

/-- Witness for `tableMatch_case_sensitive` at a concrete rule and tables. -/
theorem tableMatch_case_sensitive_witness :
    isRuleMatch (fun _ _ => true) c9rule "users" "email" = false :=
  (tableMatch_case_sensitive (fun _ _ => true) c9rule "users" "x" "email").1
    (by decide) (by decide)

/-! ## Claim C10: `UpdateNotification` touches only `read` and `updater_id` -/

/-- C10: `UpdateNotification` modifies only the notification's read flag and
updater id: every notification in the post-state agrees with a notification
of the pre-state (the one with its id) on type, title, content, recipient,
the three correlation ids, creator and create time. -/
theorem updateNotification_frame (notifs : List NotificationRow) (u : NotificationUpdate)
    (l : List NotificationRow) (r n : NotificationRow)
    (hrun : UpdateNotification notifs u = Except.ok (l, r)) (hn : n ∈ l) :
    ∃ m ∈ notifs, m.id = n.id ∧ m.type = n.type ∧ m.title = n.title ∧
      m.content = n.content ∧ m.recipientId = n.recipientId ∧
      m.approvalFlowExecutionId = n.approvalFlowExecutionId ∧
      m.approvalNodeExecutionId = n.approvalNodeExecutionId ∧
      m.approvalId = n.approvalId ∧ m.creatorId = n.creatorId ∧
      m.createTime = n.createTime := by
  unfold UpdateNotification at hrun
  split at hrun
  · exact Except.noConfusion hrun
  split at hrun
  · exact Except.noConfusion hrun
  split at hrun
  · exact Except.noConfusion hrun
  split at hrun
  · exact Except.noConfusion hrun
  · simp only [Except.ok.injEq, Prod.mk.injEq] at hrun
    obtain ⟨hl2, _⟩ := hrun
    subst hl2
    obtain ⟨m, hm, hmn⟩ := List.mem_map.1 hn
    refine ⟨m, hm, ?_⟩
    by_cases hid : m.id = u.id
    · rw [if_pos hid] at hmn
      subst hmn
      simp [applyNotificationUpdate]
    · rw [if_neg hid] at hmn
      subst hmn
      simp

/-- Concrete notification for the C10 witness. -/
def c10orig : NotificationRow :=
  { id := 1, type := "approval_request", title := "t", content := "c",
    recipientId := 2, approvalFlowExecutionId := 3, approvalNodeExecutionId := 4,
    approvalId := 5, read := false, creatorId := 6, updaterId := 6, createTime := 7 }

/-- Concrete update request for the C10 witness. -/
def c10upd : NotificationUpdate := { id := 1, read := some true, updaterId := 9 }

/-- The stored row after the C10 witness update. -/
def c10after : NotificationRow := { c10orig with read := true, updaterId := 9 }

/-- Witness for `updateNotification_frame` on a concrete store. -/
theorem updateNotification_frame_witness :
    ∃ m ∈ [c10orig], m.id = c10after.id ∧ m.type = c10after.type ∧
      m.title = c10after.title ∧ m.content = c10after.content ∧
      m.recipientId = c10after.recipientId ∧
      m.approvalFlowExecutionId = c10after.approvalFlowExecutionId ∧
      m.approvalNodeExecutionId = c10after.approvalNodeExecutionId ∧
      m.approvalId = c10after.approvalId ∧ m.creatorId = c10after.creatorId ∧
      m.createTime = c10after.createTime :=
  updateNotification_frame [c10orig] c10upd [c10after] c10after c10after
    rfl (by simp)

/-! ## Claim C1: the flow selector -/

/-- An enabled MEDIUM flow, present while no HIGH flow exists. -/
def c1mediumFlow : ApprovalFlowV1 :=
  { name := "projects/p/approvalFlows/med", level := SensitiveDataLevel.medium,
    enabled := true,
    steps := [{ step := 1, approvers := ["users/alice"],
                approvalType := ApprovalTypeV1.all }] }

/-- A disabled HIGH flow. -/
def c1disabledHigh : ApprovalFlowV1 :=
  { name := "projects/p/approvalFlows/hi", level := SensitiveDataLevel.high,
    enabled := false,
    steps := [{ step := 1, approvers := ["users/bob"],
                approvalType := ApprovalTypeV1.all }] }

/-- C1 counterexample: the claim says the selector returns only enabled flows
and, when no enabled flow exists at the maximum level, walks down the ordinal
before falling back to the default. The code does neither: with maximum HIGH
and only an enabled MEDIUM flow it skips the MEDIUM flow and returns the
built-in HIGH default, and a disabled HIGH flow is returned as-is. -/
theorem flowSelector_walkdown_counterexample :
    requiredApprovalFlowFor "projects/p" [c1mediumFlow] SensitiveDataLevel.high ≠
      some c1mediumFlow ∧
    requiredApprovalFlowFor "projects/p" [c1mediumFlow] SensitiveDataLevel.high =
      getDefaultApprovalFlow "projects/p" SensitiveDataLevel.high ∧
    c1mediumFlow.enabled = true ∧
    c1disabledHigh.enabled = false ∧
    requiredApprovalFlowFor "projects/p" [c1disabledHigh] SensitiveDataLevel.high =
      some c1disabledHigh := by
  decide

/-- C1 amended: for a computed maximum level other than UNSPECIFIED the
selector returns the first flow (in list order) whose level equals that
maximum, regardless of whether the flow is enabled; if no level-matching flow
exists it returns the built-in default flow for that maximum without
searching other levels (HIGH: security-admin step then dba step, both ALL;
MEDIUM: one dba ALL step; LOW: one SELF ALL step). -/
theorem flowSelector_first_match_or_default (parent : String)
    (flows : List ApprovalFlowV1) (lvl : SensitiveDataLevel)
    (h : lvl ≠ SensitiveDataLevel.unspecified) :
    (∀ pre f post, flows = pre ++ f :: post → f.level = lvl →
        (∀ g ∈ pre, g.level ≠ lvl) →
        requiredApprovalFlowFor parent flows lvl = some f) ∧
    ((∀ g ∈ flows, g.level ≠ lvl) →
        requiredApprovalFlowFor parent flows lvl = getDefaultApprovalFlow parent lvl) ∧
    (getDefaultApprovalFlow parent SensitiveDataLevel.high).map (fun fl => fl.steps) =
      some [{ step := 1, approvers := ["roles/security-admin"],
              approvalType := ApprovalTypeV1.all },
            { step := 2, approvers := ["roles/dba"], approvalType := ApprovalTypeV1.all }] ∧
    (getDefaultApprovalFlow parent SensitiveDataLevel.medium).map (fun fl => fl.steps) =
      some [{ step := 1, approvers := ["roles/dba"], approvalType := ApprovalTypeV1.all }] ∧
    (getDefaultApprovalFlow parent SensitiveDataLevel.low).map (fun fl => fl.steps) =
      some [{ step := 1, approvers := ["self"], approvalType := ApprovalTypeV1.all }] := by
  refine ⟨?_, ?_, rfl, rfl, rfl⟩
  · intro pre f post hsplit hf hpre
    subst hsplit
    unfold requiredApprovalFlowFor
    rw [if_pos h, findFlowByLevelLoop_first pre f post lvl hf hpre]
  · intro hnone
    unfold requiredApprovalFlowFor
    rw [if_pos h, findFlowByLevelLoop_none flows lvl hnone]

/-- Witness for `flowSelector_first_match_or_default`: the disabled HIGH flow
is selected for maximum level HIGH. -/
theorem flowSelector_first_match_or_default_witness :
    requiredApprovalFlowFor "projects/p" [c1disabledHigh] SensitiveDataLevel.high =
      some c1disabledHigh :=
  (flowSelector_first_match_or_default "projects/p" [c1disabledHigh]
      SensitiveDataLevel.high (by decide)).1 [] c1disabledHigh [] rfl (by decide)
    (by simp)

/-! ## Claim C5: `CreateApprovalFlowExecution` guards -/

/-- A disabled flow with no nodes, present in the C5 counterexample store. -/
def c5flow : FlowRow :=
  { id := 1, level := SensitiveDataLevel.high, enabled := false, createTime := 5 }

/-- An existing non-terminal execution for issue 7. -/
def c5exec : ExecRow :=
  { id := 40, flowId := 1, issueId := 7, level := SensitiveDataLevel.high,
    status := ExecStatus.inProgress, creatorId := 2, createTime := 6 }

/-- The C5 counterexample store. -/
def c5state : StoreState :=
  { flows := [c5flow], nodes := [], executions := [c5exec], nodeExecutions := [],
    approvals := [], issues := [], rules := [], nextExecutionId := 41,
    nextNodeExecutionId := 100, nextApprovalId := 200, now := 10 }

/-- The C5 counterexample request: a second execution for issue 7. -/
def c5create : ExecCreate :=
  { flowId := 1, issueId := 7, level := SensitiveDataLevel.high,
    status := ExecStatus.inProgress, creatorId := 2 }

/-- C5 counterexample: the claim says creating an execution fails with
DuplicateActive when a non-terminal execution exists for the issue (and with
FlowDisabled / EmptyFlow for a disabled or node-less flow). Here the flow is
disabled and empty and issue 7 already has an IN_PROGRESS execution, yet the
call succeeds and the store ends up with two non-terminal executions for
issue 7. -/
theorem beginExecution_counterexample :
    exceptOk (CreateApprovalFlowExecution c5state c5create) = true ∧
    ((runState (CreateApprovalFlowExecution c5state c5create) c5state).executions.filter
        fun e => decide (e.issueId = 7) && e.status.isTerminal = false).length = 2 ∧
    c5flow.enabled = false ∧
    (nodesOfFlow c5state.nodes c5create.flowId).length = 0 := by
  decide

/-- C5 amended: `CreateApprovalFlowExecution` validates only that the flow id
and issue id are positive, the level and status are specified, and the flow
exists; it performs no FlowDisabled, DuplicateActive or EmptyFlow check, so
it succeeds regardless of the flow's enabled bit, of existing (non-terminal)
executions for the issue, and of the flow having no nodes, and appends a new
execution carrying the requested issue id and status. -/
theorem beginExecution_no_guards (s : StoreState) (c : ExecCreate) (flow : FlowRow)
    (h1 : 0 < c.flowId) (h2 : 0 < c.issueId)
    (h3 : c.level ≠ SensitiveDataLevel.unspecified) (h4 : c.status ≠ ExecStatus.unspecified)
    (h5 : findFlow s.flows c.flowId = some flow) :
    ∃ s', CreateApprovalFlowExecution s c = Except.ok (s', newExecRow s c) ∧
      s'.executions = s.executions ++ [newExecRow s c] ∧
      (newExecRow s c).issueId = c.issueId ∧ (newExecRow s c).status = c.status ∧
      ∀ e ∈ s.executions, e ∈ s'.executions := by
  refine ⟨_, createExecution_ok s c flow h1 h2 h3 h4 h5, rfl, rfl, rfl, ?_⟩
  intro e he
  exact List.mem_append_left _ he

/-- Witness for `beginExecution_no_guards` on the C5 counterexample store. -/
theorem beginExecution_no_guards_witness :
    ∃ s', CreateApprovalFlowExecution c5state c5create =
        Except.ok (s', newExecRow c5state c5create) ∧
      s'.executions = c5state.executions ++ [newExecRow c5state c5create] ∧
      (newExecRow c5state c5create).issueId = c5create.issueId ∧
      (newExecRow c5state c5create).status = c5create.status ∧
      ∀ e ∈ c5state.executions, e ∈ s'.executions :=
  beginExecution_no_guards c5state c5create c5flow (by decide) (by decide)
    (by decide) (by decide) (by decide)

/-! ## Claim C3: a rejection settles node and flow, freezing the rest -/

/-- C3: when a decision is recorded and some decision on the node (the new
one or a stored one) is REJECTED, the call succeeds, the node execution's
status becomes REJECTED, the owning flow execution's status becomes
REJECTED, and every other node-execution row (in particular those at higher
positions, still PENDING) is carried over unchanged. -/
theorem rejection_short_circuits (s : StoreState) (c : ApprovalCreate)
    (ne : NodeExecRow) (nd : NodeRow) (e : ExecRow)
    (h1 : 0 < c.nodeExecutionId) (h2 : 0 < c.userId)
    (h3 : c.status ≠ ApprovalStatus.unspecified)
    (h4 : findNodeExec s.nodeExecutions c.nodeExecutionId = some ne)
    (h5 : findNode s.nodes ne.nodeId = some nd)
    (he : findExec s.executions ne.executionId = some e)
    (hrej : c.status = ApprovalStatus.rejected ∨
      ∃ a ∈ s.approvals, a.nodeExecutionId = c.nodeExecutionId ∧
        a.status = ApprovalStatus.rejected) :
    ∃ s', CreateApproval s c = Except.ok (s', newApprovalRow s c) ∧
      (findNodeExec s'.nodeExecutions c.nodeExecutionId).map (fun x => x.status) =
        some NodeExecStatus.rejected ∧
      (findExec s'.executions ne.executionId).map (fun x => x.status) =
        some ExecStatus.rejected ∧
      ∀ x ∈ s.nodeExecutions, x.id ≠ c.nodeExecutionId → x ∈ s'.nodeExecutions := by
  have hpos : 0 < countRejected (nodeApprovalsAfter s c) := by
    rcases hrej with hc | ⟨a, ha, hna, hsa⟩
    · refine countRejected_pos_of_mem (a := newApprovalRow s c) ?_ hc
      exact List.mem_append_right _ (List.mem_singleton.2 rfl)
    · have hmem : a ∈ s.approvals.filter
          fun x => decide (x.nodeExecutionId = c.nodeExecutionId) :=
        List.mem_filter.2 ⟨ha, by simp [hna]⟩
      exact countRejected_pos_of_mem (List.mem_append_left _ hmem) hsa
  have hdec : decidedNodeStatus nd.requiredApprovals (nodeApprovalsAfter s c) =
      NodeExecStatus.rejected := by
    unfold decidedNodeStatus
    rw [if_pos hpos]
  rw [createApproval_eq_step s c ne nd h1 h2 h3 h4 h5, hdec,
    approvalStep_rejected s c ne]
  refine ⟨_, rfl, ?_, ?_, ?_⟩
  · simp only [approvalInsertedState]
    rw [findNodeExec_set, h4]
    simp [(findNodeExec_eq_some h4).2]
  · simp only [approvalInsertedState]
    rw [findExec_set, he]
    simp [(findExec_eq_some he).2]
  · intro x hx hne2
    exact mem_setNodeExecStatus_of_ne hx hne2 _

/-- The first node of the C3 witness flow (quorum two). -/
def c3node1 : NodeRow := { id := 10, flowId := 1, requiredApprovals := 2 }

/-- The second node of the C3 witness flow. -/
def c3node2 : NodeRow := { id := 11, flowId := 1, requiredApprovals := 1 }

/-- The C3 witness store: a two-node flow mid-execution at the first node. -/
def c3state : StoreState :=
  { flows := [{ id := 1, level := SensitiveDataLevel.high, enabled := true, createTime := 1 }],
    nodes := [c3node1, c3node2],
    executions := [{ id := 30, flowId := 1, issueId := 7, level := SensitiveDataLevel.high,
                     status := ExecStatus.inProgress, creatorId := 2, createTime := 5 }],
    nodeExecutions := [{ id := 20, executionId := 30, nodeId := 10,
                         status := NodeExecStatus.inProgress },
                       { id := 21, executionId := 30, nodeId := 11,
                         status := NodeExecStatus.pending }],
    approvals := [], issues := [], rules := [], nextExecutionId := 31,
    nextNodeExecutionId := 22, nextApprovalId := 100, now := 9 }

/-- The C3 witness request: a REJECTED decision on the first node. -/
def c3req : ApprovalCreate :=
  { nodeExecutionId := 20, userId := 5, status := ApprovalStatus.rejected, comment := "" }

/-- Witness for `rejection_short_circuits` on the two-node store. -/
theorem rejection_short_circuits_witness :
    ∃ s', CreateApproval c3state c3req = Except.ok (s', newApprovalRow c3state c3req) ∧
      (findNodeExec s'.nodeExecutions c3req.nodeExecutionId).map (fun x => x.status) =
        some NodeExecStatus.rejected ∧
      (findExec s'.executions 30).map (fun x => x.status) = some ExecStatus.rejected ∧
      ∀ x ∈ c3state.nodeExecutions, x.id ≠ c3req.nodeExecutionId →
        x ∈ s'.nodeExecutions :=
  rejection_short_circuits c3state c3req
    { id := 20, executionId := 30, nodeId := 10, status := NodeExecStatus.inProgress }
    c3node1
    { id := 30, flowId := 1, issueId := 7, level := SensitiveDataLevel.high,
      status := ExecStatus.inProgress, creatorId := 2, createTime := 5 }
    (by decide) (by decide) (by decide) (by decide) (by decide) (by decide)
    (Or.inl rfl)

/-! ## Claim C4: quorum reached advances, quorum not reached stays -/

/-- C4: with no REJECTED decision on the node, if the APPROVED count reaches
the node's requiredApprovals the node execution becomes APPROVED and — when
no node of the flow lies beyond it — the flow execution becomes APPROVED,
while otherwise the next-position node execution (PENDING) is promoted to
IN_PROGRESS with the flow execution untouched; if the quorum is not reached
the node execution is IN_PROGRESS and nothing else changes. -/
theorem quorum_transition (s : StoreState) (c : ApprovalCreate)
    (ne : NodeExecRow) (nd : NodeRow) (e : ExecRow)
    (h1 : 0 < c.nodeExecutionId) (h2 : 0 < c.userId)
    (h3 : c.status ≠ ApprovalStatus.unspecified)
    (h4 : findNodeExec s.nodeExecutions c.nodeExecutionId = some ne)
    (h5 : findNode s.nodes ne.nodeId = some nd)
    (he : findExec s.executions ne.executionId = some e)
    (hnorej : countRejected (nodeApprovalsAfter s c) = 0) :
    (nd.requiredApprovals ≤ (countApproved (nodeApprovalsAfter s c) : Int) →
      (nextNodeAfter s ne = none →
        ∃ s', CreateApproval s c = Except.ok (s', newApprovalRow s c) ∧
          (findNodeExec s'.nodeExecutions c.nodeExecutionId).map (fun x => x.status) =
            some NodeExecStatus.approved ∧
          (findExec s'.executions ne.executionId).map (fun x => x.status) =
            some ExecStatus.approved) ∧
      (∀ nid nx, nextNodeAfter s ne = some nid → 0 < nid →
        findNodeExecByNode s.nodeExecutions ne.executionId nid = some nx →
        nx.status = NodeExecStatus.pending → nx.id ≠ c.nodeExecutionId →
        ∃ s', CreateApproval s c = Except.ok (s', newApprovalRow s c) ∧
          (findNodeExec s'.nodeExecutions c.nodeExecutionId).map (fun x => x.status) =
            some NodeExecStatus.approved ∧
          (findNodeExec s'.nodeExecutions nx.id).map (fun x => x.status) =
            some NodeExecStatus.inProgress ∧
          s'.executions = s.executions)) ∧
    ((countApproved (nodeApprovalsAfter s c) : Int) < nd.requiredApprovals →
      ∃ s', CreateApproval s c = Except.ok (s', newApprovalRow s c) ∧
        (findNodeExec s'.nodeExecutions c.nodeExecutionId).map (fun x => x.status) =
          some NodeExecStatus.inProgress ∧
        s'.executions = s.executions) := by
  constructor
  · intro hq
    have hdec : decidedNodeStatus nd.requiredApprovals (nodeApprovalsAfter s c) =
        NodeExecStatus.approved := by
      unfold decidedNodeStatus
      rw [if_neg (by omega), if_pos hq]
    constructor
    · intro hnone
      rw [createApproval_eq_step s c ne nd h1 h2 h3 h4 h5, hdec,
        approvalStep_approved_last s c ne hnone]
      refine ⟨_, rfl, ?_, ?_⟩
      · simp only [approvalInsertedState]
        rw [findNodeExec_set, h4]
        simp [(findNodeExec_eq_some h4).2]
      · simp only [approvalInsertedState]
        rw [findExec_set, he]
        simp [(findExec_eq_some he).2]
    · intro nid nx hsome hposn hnx hpend hneid
      rw [createApproval_eq_step s c ne nd h1 h2 h3 h4 h5, hdec,
        approvalStep_approved_promote s c ne nid nx hsome hposn hnx]
      refine ⟨_, rfl, ?_, ?_, rfl⟩
      · simp only [approvalInsertedState]
        rw [findNodeExec_set, findNodeExec_set, h4]
        simp [(findNodeExec_eq_some h4).2, Ne.symm hneid]
      · simp only [approvalInsertedState]
        obtain ⟨y, hy⟩ := findNodeExec_exists_of_mem (findNodeExecByNode_eq_some hnx).1
        rw [findNodeExec_set, findNodeExec_set, hy]
        simp [(findNodeExec_eq_some hy).2, hneid]
  · intro hlt
    have hdec : decidedNodeStatus nd.requiredApprovals (nodeApprovalsAfter s c) =
        NodeExecStatus.inProgress := by
      unfold decidedNodeStatus
      rw [if_neg (by omega), if_neg (by omega)]
    rw [createApproval_eq_step s c ne nd h1 h2 h3 h4 h5, hdec,
      approvalStep_inProgress s c ne]
    refine ⟨_, rfl, ?_, rfl⟩
    simp only [approvalInsertedState]
    rw [findNodeExec_set, h4]
    simp [(findNodeExec_eq_some h4).2]

/-- The first (ANY-like, quorum one) node of the C4 witness flow. -/
def c4node1 : NodeRow := { id := 10, flowId := 1, requiredApprovals := 1 }

/-- The second node of the C4 witness flow. -/
def c4node2 : NodeRow := { id := 11, flowId := 1, requiredApprovals := 1 }

/-- The pending second-node execution promoted in the C4 witness. -/
def c4nx : NodeExecRow :=
  { id := 21, executionId := 30, nodeId := 11, status := NodeExecStatus.pending }

/-- The C4 witness store: a two-node flow mid-execution at the first node. -/
def c4state : StoreState :=
  { flows := [{ id := 1, level := SensitiveDataLevel.high, enabled := true, createTime := 1 }],
    nodes := [c4node1, c4node2],
    executions := [{ id := 30, flowId := 1, issueId := 7, level := SensitiveDataLevel.high,
                     status := ExecStatus.inProgress, creatorId := 2, createTime := 5 }],
    nodeExecutions := [{ id := 20, executionId := 30, nodeId := 10,
                         status := NodeExecStatus.inProgress }, c4nx],
    approvals := [], issues := [], rules := [], nextExecutionId := 31,
    nextNodeExecutionId := 22, nextApprovalId := 100, now := 9 }

/-- The C4 witness request: an APPROVED decision meeting the quorum. -/
def c4req : ApprovalCreate :=
  { nodeExecutionId := 20, userId := 5, status := ApprovalStatus.approved, comment := "" }

/-- Witness for `quorum_transition`: the quorum is met, the node becomes
APPROVED and the next node execution is promoted to IN_PROGRESS. -/
theorem quorum_transition_witness :
    ∃ s', CreateApproval c4state c4req = Except.ok (s', newApprovalRow c4state c4req) ∧
      (findNodeExec s'.nodeExecutions c4req.nodeExecutionId).map (fun x => x.status) =
        some NodeExecStatus.approved ∧
      (findNodeExec s'.nodeExecutions c4nx.id).map (fun x => x.status) =
        some NodeExecStatus.inProgress ∧
      s'.executions = c4state.executions :=
  ((quorum_transition c4state c4req
      { id := 20, executionId := 30, nodeId := 10, status := NodeExecStatus.inProgress }
      c4node1
      { id := 30, flowId := 1, issueId := 7, level := SensitiveDataLevel.high,
        status := ExecStatus.inProgress, creatorId := 2, createTime := 5 }
      (by decide) (by decide) (by decide) (by decide) (by decide) (by decide)
      (by decide)).1 (by decide)).2 11 c4nx (by decide) (by decide) (by decide)
    (by decide) (by decide)

/-! ## Claim C6: duplicate decisions -/

/-- The C6 store: one node with quorum two, mid-execution. -/
def c6state : StoreState :=
  { flows := [{ id := 1, level := SensitiveDataLevel.high, enabled := true, createTime := 1 }],
    nodes := [{ id := 10, flowId := 1, requiredApprovals := 2 }],
    executions := [{ id := 30, flowId := 1, issueId := 7, level := SensitiveDataLevel.high,
                     status := ExecStatus.inProgress, creatorId := 2, createTime := 5 }],
    nodeExecutions := [{ id := 20, executionId := 30, nodeId := 10,
                         status := NodeExecStatus.inProgress }],
    approvals := [], issues := [], rules := [], nextExecutionId := 31,
    nextNodeExecutionId := 21, nextApprovalId := 100, now := 9 }

/-- The decision replayed in the C6 scenario. -/
def c6req : ApprovalCreate :=
  { nodeExecutionId := 20, userId := 5, status := ApprovalStatus.approved, comment := "" }

/-- The store after the first recording of the C6 decision. -/
def c6afterFirst : StoreState := runState (CreateApproval c6state c6req) c6state

/-- The store after replaying the identical C6 decision. -/
def c6afterSecond : StoreState := runState (CreateApproval c6afterFirst c6req) c6afterFirst

/-- C6 counterexample: the claim says a replayed decision either fails as a
duplicate or leaves all statuses unchanged, and that each pair stores at most
one decision. Here the same APPROVED decision by user 5 succeeds twice, two
rows are stored for the pair (20, 5), and the duplicate is counted toward
the quorum of two, flipping the node and the flow execution to APPROVED. -/
theorem duplicate_decision_counterexample :
    exceptOk (CreateApproval c6state c6req) = true ∧
    exceptOk (CreateApproval c6afterFirst c6req) = true ∧
    pairCount c6afterSecond.approvals 20 5 = 2 ∧
    (findNodeExec c6afterFirst.nodeExecutions 20).map (fun x => x.status) =
      some NodeExecStatus.inProgress ∧
    (findNodeExec c6afterSecond.nodeExecutions 20).map (fun x => x.status) =
      some NodeExecStatus.approved ∧
    (findExec c6afterSecond.executions 30).map (fun x => x.status) =
      some ExecStatus.approved := by
  decide

/-- C6 amended: `CreateApproval` has no duplicate-decision check: every
successful call appends one more approval row, so the count of stored
decisions for the new row's (nodeExecutionId, userId) pair always grows by
one — replaying an identical request stores a second row for the same pair,
and the duplicate participates in the quorum recount. -/
theorem duplicate_decision_appends (s : StoreState) (c : ApprovalCreate)
    (s' : StoreState) (row : ApprovalRow)
    (hok : CreateApproval s c = Except.ok (s', row)) :
    row = newApprovalRow s c ∧ s'.approvals = s.approvals ++ [row] ∧
    ∀ neid uid, pairCount s'.approvals neid uid = pairCount s.approvals neid uid +
      (if (newApprovalRow s c).nodeExecutionId = neid ∧ (newApprovalRow s c).userId = uid
       then 1 else 0) := by
  obtain ⟨hr, hs⟩ := createApproval_ok_shape s c s' row hok
  subst hr
  refine ⟨rfl, hs, ?_⟩
  intro neid uid
  rw [hs, pairCount_append_single]

/-- Witness for `duplicate_decision_appends` at the replayed C6 decision. -/
theorem duplicate_decision_appends_witness :
    newApprovalRow c6afterFirst c6req = newApprovalRow c6afterFirst c6req ∧
    c6afterSecond.approvals =
      c6afterFirst.approvals ++ [newApprovalRow c6afterFirst c6req] ∧
    ∀ neid uid, pairCount c6afterSecond.approvals neid uid =
      pairCount c6afterFirst.approvals neid uid +
      (if (newApprovalRow c6afterFirst c6req).nodeExecutionId = neid ∧
          (newApprovalRow c6afterFirst c6req).userId = uid then 1 else 0) :=
  duplicate_decision_appends c6afterFirst c6req c6afterSecond
    (newApprovalRow c6afterFirst c6req) rfl

/-! ## Claim C7: terminal executions are not frozen -/

/-- The C7 store: a REJECTED (terminal) execution with one pending node. -/
def c7state : StoreState :=
  { flows := [{ id := 1, level := SensitiveDataLevel.high, enabled := true, createTime := 1 }],
    nodes := [{ id := 10, flowId := 1, requiredApprovals := 1 }],
    executions := [{ id := 30, flowId := 1, issueId := 7, level := SensitiveDataLevel.high,
                     status := ExecStatus.rejected, creatorId := 2, createTime := 5 }],
    nodeExecutions := [{ id := 20, executionId := 30, nodeId := 10,
                         status := NodeExecStatus.pending }],
    approvals := [], issues := [], rules := [], nextExecutionId := 31,
    nextNodeExecutionId := 21, nextApprovalId := 100, now := 9 }

/-- The decision recorded against the terminal C7 execution. -/
def c7req : ApprovalCreate :=
  { nodeExecutionId := 20, userId := 5, status := ApprovalStatus.approved, comment := "" }

/-- The C7 store after the decision. -/
def c7after : StoreState := runState (CreateApproval c7state c7req) c7state

/-- C7 counterexample: the claim says recording a decision against a node
execution of a terminal execution fails and nothing mutates. Here the
execution is REJECTED, yet the decision succeeds, appends an approval row
and flips the terminal execution to APPROVED. -/
theorem terminal_mutation_counterexample :
    (findExec c7state.executions 30).map (fun x => x.status) = some ExecStatus.rejected ∧
    exceptOk (CreateApproval c7state c7req) = true ∧
    (findExec c7after.executions 30).map (fun x => x.status) = some ExecStatus.approved ∧
    c7after.approvals.length = c7state.approvals.length + 1 := by
  decide

/-- C7 amended: neither `CreateApproval` nor `UpdateApprovalFlowExecution`
inspects the execution's current status. A decision against a node execution
of a terminal execution is processed like any other (a successful call
appends an approval row), and `UpdateApprovalFlowExecution` overwrites the
status of a terminal execution with whatever status is requested. -/
theorem terminal_not_frozen (s : StoreState) :
    (∀ c ne e s' row,
      findNodeExec s.nodeExecutions c.nodeExecutionId = some ne →
      findExec s.executions ne.executionId = some e →
      e.status.isTerminal = true →
      CreateApproval s c = Except.ok (s', row) →
      s'.approvals = s.approvals ++ [row]) ∧
    (∀ u e, 0 < u.id →
      findExec s.executions u.id = some e →
      e.status.isTerminal = true →
      ∃ s' e2, UpdateApprovalFlowExecution s u = Except.ok (s', e2) ∧
        (findExec s'.executions u.id).map (fun x => x.status) = some u.status) := by
  constructor
  · intro c ne e s' row _ _ _ hok
    obtain ⟨hr, hs⟩ := createApproval_ok_shape s c s' row hok
    subst hr
    exact hs
  · intro u e hu he _
    have hf : findExec (setExecStatus s.executions u.id u.status) u.id =
        some { e with status := u.status } := by
      rw [findExec_set, he]
      simp [(findExec_eq_some he).2]
    have hrun : UpdateApprovalFlowExecution s u =
        Except.ok ({ s with executions := setExecStatus s.executions u.id u.status },
          { e with status := u.status }) := by
      unfold UpdateApprovalFlowExecution
      rw [if_neg (by omega), he]
      dsimp only
      rw [hf]
    refine ⟨_, _, hrun, ?_⟩
    dsimp only
    rw [hf]
    rfl

/-- Witness for `terminal_not_frozen`: the terminal REJECTED execution of the
C7 store is overwritten to CANCELLED by `UpdateApprovalFlowExecution`. -/
theorem terminal_not_frozen_witness :
    ∃ s' e2, UpdateApprovalFlowExecution c7state
        { id := 30, status := ExecStatus.cancelled } = Except.ok (s', e2) ∧
      (findExec s'.executions 30).map (fun x => x.status) = some ExecStatus.cancelled :=
  (terminal_not_frozen c7state).2 { id := 30, status := ExecStatus.cancelled }
    { id := 30, flowId := 1, issueId := 7, level := SensitiveDataLevel.high,
      status := ExecStatus.rejected, creatorId := 2, createTime := 5 }
    (by decide) (by decide) (by decide)

/-! ## Claim C8: no position or activity check on decisions -/

/-- The C8 store: two single-approver nodes; the first node execution is the
current IN_PROGRESS one, the second is PENDING (a higher position). -/
def c8state : StoreState :=
  { flows := [{ id := 1, level := SensitiveDataLevel.high, enabled := true, createTime := 1 }],
    nodes := [{ id := 10, flowId := 1, requiredApprovals := 1 },
              { id := 11, flowId := 1, requiredApprovals := 1 }],
    executions := [{ id := 30, flowId := 1, issueId := 7, level := SensitiveDataLevel.high,
                     status := ExecStatus.inProgress, creatorId := 2, createTime := 5 }],
    nodeExecutions := [{ id := 20, executionId := 30, nodeId := 10,
                         status := NodeExecStatus.inProgress },
                       { id := 21, executionId := 30, nodeId := 11,
                         status := NodeExecStatus.pending }],
    approvals := [], issues := [], rules := [], nextExecutionId := 31,
    nextNodeExecutionId := 22, nextApprovalId := 100, now := 9 }

/-- The C8 request: a decision on the PENDING node execution 21, whose
position is not the execution's current one. -/
def c8req : ApprovalCreate :=
  { nodeExecutionId := 21, userId := 5, status := ApprovalStatus.approved, comment := "" }

/-- The C8 store after the out-of-position decision. -/
def c8after : StoreState := runState (CreateApproval c8state c8req) c8state

/-- C8 counterexample: the claim says a decision at a position other than
the current one fails with NotCurrentPosition, and a decision on a PENDING
node execution is never processed. Here the decision on the PENDING node
execution 21 (while node execution 20 is the current one) succeeds, approves
node 21 and even the whole flow execution, with node execution 20 still
IN_PROGRESS. -/
theorem position_check_counterexample :
    (findNodeExec c8state.nodeExecutions 21).map (fun x => x.status) =
      some NodeExecStatus.pending ∧
    (findNodeExec c8state.nodeExecutions 20).map (fun x => x.status) =
      some NodeExecStatus.inProgress ∧
    exceptOk (CreateApproval c8state c8req) = true ∧
    (findNodeExec c8after.nodeExecutions 21).map (fun x => x.status) =
      some NodeExecStatus.approved ∧
    (findNodeExec c8after.nodeExecutions 20).map (fun x => x.status) =
      some NodeExecStatus.inProgress ∧
    (findExec c8after.executions 30).map (fun x => x.status) =
      some ExecStatus.approved := by
  decide

/-- C8 amended: `CreateApproval` validates only that the ids are positive,
the decision status is specified, and the node execution and its node exist;
it has no NotActive or NotCurrentPosition check. A decision on a PENDING or
already-APPROVED node execution is processed like any other: the only
possible error past validation is the missing-next-node-execution lookup,
and every successful call appends the approval row. -/
theorem decision_ignores_position_and_status (s : StoreState) (c : ApprovalCreate)
    (ne : NodeExecRow) (nd : NodeRow)
    (h1 : 0 < c.nodeExecutionId) (h2 : 0 < c.userId)
    (h3 : c.status ≠ ApprovalStatus.unspecified)
    (h4 : findNodeExec s.nodeExecutions c.nodeExecutionId = some ne)
    (h5 : findNode s.nodes ne.nodeId = some nd)
    (_hst : ne.status = NodeExecStatus.pending ∨ ne.status = NodeExecStatus.approved) :
    (∀ msg, CreateApproval s c = Except.error msg →
      msg = "failed to get next approval node execution") ∧
    (∀ s' row, CreateApproval s c = Except.ok (s', row) →
      s'.approvals = s.approvals ++ [row]) := by
  constructor
  · intro msg hmsg
    rw [createApproval_eq_step s c ne nd h1 h2 h3 h4 h5] at hmsg
    unfold approvalStep at hmsg
    repeat' split at hmsg
    all_goals
      first
        | (injection hmsg with h
           exact h.symm)
        | exact Except.noConfusion hmsg
  · intro s' row hok
    obtain ⟨hr, hs⟩ := createApproval_ok_shape s c s' row hok
    subst hr
    exact hs

/-- Witness for `decision_ignores_position_and_status` at the C8 store: the
decision against the PENDING node execution is stored. -/
theorem decision_ignores_position_and_status_witness :
    c8after.approvals = c8state.approvals ++ [newApprovalRow c8state c8req] :=
  (decision_ignores_position_and_status c8state c8req
      { id := 21, executionId := 30, nodeId := 11, status := NodeExecStatus.pending }
      { id := 11, flowId := 1, requiredApprovals := 1 }
      (by decide) (by decide) (by decide) (by decide) (by decide)
      (Or.inl rfl)).2 c8after (newApprovalRow c8state c8req) rfl

/-! ## Claim C2: the gate's verdict on an existing execution -/

/-- The C2 store: issue 7 has a CANCELLED execution, and an enabled HIGH
flow exists. -/
def c2state : StoreState :=
  { flows := [{ id := 3, level := SensitiveDataLevel.high, enabled := true, createTime := 50 }],
    nodes := [], executions := [{ id := 1, flowId := 3, issueId := 7,
                                  level := SensitiveDataLevel.high,
                                  status := ExecStatus.cancelled, creatorId := 1,
                                  createTime := 100 }],
    nodeExecutions := [], approvals := [], issues := [{ id := 7, creatorId := 1 }],
    rules := [], nextExecutionId := 2, nextNodeExecutionId := 10, nextApprovalId := 20,
    now := 200 }

/-- The C2 plan, for issue 7. -/
def c2plan : Plan := { issueId := 7, statement := "ALTER TABLE t ADD COLUMN c" }

/-- C2 counterexample: the claim says a CANCELLED execution denies the plan
and never leads to creating a new execution. Here the check on the issue
with a CANCELLED execution falls through the status switch, evaluates the
change as sensitive and creates a second execution, returning the block-
created outcome instead of a denial. -/
theorem gate_cancelled_counterexample :
    (listExecutionsForIssue c2state 7).map (fun e => e.status) = [ExecStatus.cancelled] ∧
    (sensitiveDataCheck c2state c2plan).1 = CheckResult.errBlockCreated 2 ∧
    (sensitiveDataCheck c2state c2plan).2.executions.length = 2 := by
  decide

/-- C2 amended: when the issue has an execution, the verdict of the gate is
determined by the newest execution's status for the handled statuses:
APPROVED admits, REJECTED denies, and PENDING, IN_PROGRESS or UNSPECIFIED
block with approval-in-progress; a CANCELLED execution is not handled by the
status switch — the check falls through to the sensitive-data evaluation and
(because the placeholder parser reports a HIGH dummy change) either fails
with no-enabled-flow or creates a new execution for the issue. -/
theorem gate_verdicts_by_status (s : StoreState) (plan : Plan) (issue : IssueRow)
    (e : ExecRow) (rest : List ExecRow)
    (hi : findIssue s.issues plan.issueId = some issue)
    (hl : listExecutionsForIssue s issue.id = e :: rest) :
    (e.status = ExecStatus.approved → sensitiveDataCheck s plan = (CheckResult.allow, s)) ∧
    (e.status = ExecStatus.rejected →
      sensitiveDataCheck s plan = (CheckResult.errDenyRejected, s)) ∧
    ((e.status = ExecStatus.pending ∨ e.status = ExecStatus.inProgress ∨
        e.status = ExecStatus.unspecified) →
      sensitiveDataCheck s plan = (CheckResult.errBlockInProgress e.status, s)) ∧
    (e.status = ExecStatus.cancelled → 0 < issue.id → (∀ f ∈ s.flows, 0 < f.id) →
      (sensitiveDataCheck s plan =
          (CheckResult.errNoEnabledFlow SensitiveDataLevel.high, s) ∨
       ∃ s', sensitiveDataCheck s plan = (CheckResult.errBlockCreated s.nextExecutionId, s') ∧
         s'.executions.length = s.executions.length + 1)) := by
  have key : sensitiveDataCheck s plan =
      (match e.status with
       | ExecStatus.unspecified => (CheckResult.errBlockInProgress e.status, s)
       | ExecStatus.pending => (CheckResult.errBlockInProgress e.status, s)
       | ExecStatus.inProgress => (CheckResult.errBlockInProgress e.status, s)
       | ExecStatus.rejected => (CheckResult.errDenyRejected, s)
       | ExecStatus.approved => (CheckResult.allow, s)
       | ExecStatus.cancelled => checkAfterExecutions s issue plan) := by
    unfold sensitiveDataCheck
    rw [hi]
    dsimp only
    rw [hl]
  refine ⟨?_, ?_, ?_, ?_⟩
  · intro h
    rw [key, h]
  · intro h
    rw [key, h]
  · rintro (h | h | h) <;> rw [key, h]
  · intro h hip hfp
    rw [key, h]
    exact checkAfterExecutions_cases s issue plan hip hfp

/-- The C2 witness store: issue 7 with an APPROVED execution. -/
def c2wstate : StoreState :=
  { flows := [], nodes := [],
    executions := [{ id := 1, flowId := 3, issueId := 7, level := SensitiveDataLevel.high,
                     status := ExecStatus.approved, creatorId := 1, createTime := 100 }],
    nodeExecutions := [], approvals := [], issues := [{ id := 7, creatorId := 1 }],
    rules := [], nextExecutionId := 2, nextNodeExecutionId := 10, nextApprovalId := 20,
    now := 200 }

/-- Witness for `gate_verdicts_by_status`: an APPROVED execution admits. -/
theorem gate_verdicts_by_status_witness :
    sensitiveDataCheck c2wstate { issueId := 7, statement := "x" } =
      (CheckResult.allow, c2wstate) :=
  (gate_verdicts_by_status c2wstate { issueId := 7, statement := "x" }
      { id := 7, creatorId := 1 }
      { id := 1, flowId := 3, issueId := 7, level := SensitiveDataLevel.high,
        status := ExecStatus.approved, creatorId := 1, createTime := 100 }
      [] (by decide) (by decide)).1 rfl

end ApprovalEngine
